import Mathlib

/-!
Shallow embedding of the dashboard generation-workflow orchestrator
(`src/routes/Dashboard.jsx`): per-feature generation handlers (slides,
video, roadmap, network), the binary view/download gateway, and the chat
loop.  Each asynchronous handler is embedded as a pure function from the
component state and an environment-chosen request outcome to the new
state plus the list of observable effects (network requests, alerts,
window openings, object-URL creation/revocation, console output).
-/

namespace Upstart

/-- A chat transcript entry, as stored in the `chatMessages` state. -/
structure ChatMessage where
  role : String
  text : String
deriving DecidableEq, Repr

/-- JSON request bodies sent by the dashboard handlers. -/
inductive RequestBody where
  /-- `\x7b text \x7d`, sent by `handleCreateSlides` (untrimmed). -/
  | slidesBody (text : String)
  /-- `\x7b text, download \x7d`, sent by the roadmap and video handlers (trimmed). -/
  | binaryBody (text : String) (download : Bool)
  /-- `\x7b idea \x7d`, sent by `handleCreateNetwork` (untrimmed). -/
  | networkBody (idea : String)
  /-- `\x7b message, businessIdea, chatHistory \x7d`, sent by `handleChatSubmit`. -/
  | chatBody (message : String) (businessIdea : String) (chatHistory : List ChatMessage)
deriving DecidableEq, Repr

/-- Observable side effects performed by a handler run. -/
inductive Effect where
  | fetchReq (url : String) (body : RequestBody)
  | alert (msg : String)
  | openWindow (url : String)
  | createObjectURL (blob : Nat)
  | revokeObjectURL (blob : Nat)
  | anchorClick (filename : String) (blob : Nat)
  | consoleLog (msg : String)
  | consoleError (msg : String)
deriving DecidableEq, Repr

/-- The mutable component state of the dashboard (the `useState` hooks). -/
structure DashState where
  roadmapLoading : Bool
  roadmapReady : Bool
  showRoadmapDialog : Bool
  videoLoading : Bool
  videoReady : Bool
  showVideoDialog : Bool
  chatMessages : List ChatMessage
  chatInput : String
deriving DecidableEq, Repr

/-- The fixed greeting with which the chat transcript is initialised. -/
def greeting : ChatMessage :=
  ⟨"assistant", "Hello! I\x27m Everest, your AI startup assistant. How can I help you today?"⟩

/-- Initial dashboard state: nothing loading or ready, no dialog open,
transcript holding exactly the greeting, empty chat input. -/
def dashInit : DashState :=
  { roadmapLoading := false, roadmapReady := false, showRoadmapDialog := false,
    videoLoading := false, videoReady := false, showVideoDialog := false,
    chatMessages := [greeting], chatInput := "" }

/-- JavaScript truthiness fallback `v || d` on an optional string field:
an absent or empty string falls back to the default. -/
def jsOr (v : Option String) (d : String) : String :=
  match v with
  | none => d
  | some s => if s = "" then d else s

/-- JavaScript falsiness `!v` of an optional string field: absent or empty. -/
def jsFalsy (v : Option String) : Bool :=
  match v with
  | none => true
  | some s => s = ""

/-- `String.prototype.trim`: strip leading and trailing whitespace.
Implemented by structural recursion over the character list so that it
evaluates inside the kernel. -/
def jsTrim (s : String) : String :=
  ⟨((s.data.dropWhile Char.isWhitespace).reverse.dropWhile Char.isWhitespace).reverse⟩

/-- Environment outcome for the slides request: the fetch may reject, the
JSON body may fail to parse (recording whether the response was 2xx), or a
parsed body carries optional `error` and `presentationUrl` fields. -/
inductive SlidesOutcome where
  | networkError (msg : String)
  | jsonThrow (ok : Bool) (msg : String)
  | body (ok : Bool) (error : Option String) (presentationUrl : Option String)
deriving DecidableEq, Repr

/-- `handleCreateSlides`: refuse on an empty trimmed prompt, else POST
`/api/create_slides` and either open the returned presentation URL or alert. -/
def handleCreateSlides (text : String) (out : SlidesOutcome) : List Effect :=
  if jsTrim text = "" then
    [Effect.alert "Please enter a prompt before generating slides."]
  else
    Effect.fetchReq "/api/create_slides" (RequestBody.slidesBody text) ::
    match out with
    | SlidesOutcome.networkError msg =>
        [Effect.alert (jsOr (some msg) "Something went wrong while generating slides.")]
    | SlidesOutcome.jsonThrow ok msg =>
        if ok then
          [Effect.alert (jsOr (some msg) "Something went wrong while generating slides.")]
        else
          [Effect.alert "Failed to generate slides."]
    | SlidesOutcome.body ok err url =>
        if ok then
          (match url with
           | some u =>
               if u = "" then [Effect.alert "Presentation link not found in response."]
               else [Effect.openWindow u]
           | none => [Effect.alert "Presentation link not found in response."])
        else
          [Effect.alert (jsOr err "Failed to generate slides.")]

/-- Environment outcome of a roadmap/video generate request: the fetch may
reject, a non-2xx response body may fail to parse or carry an optional
`error` field, or the request succeeds (the 2xx body is not read). -/
inductive GenOutcome where
  | networkError (msg : String)
  | httpThrow (msg : String)
  | httpError (error : Option String)
  | success
deriving DecidableEq, Repr

/-- `handleCreateRoadmap`: refuse on an empty trimmed prompt; else set
loading, clear ready, POST `/api/create_roadmap` with `download: false`;
on success mark ready and open the dialog; on any failure alert; always
clear loading at the end (the `finally` block). -/
def handleCreateRoadmap (text : String) (out : GenOutcome) (s : DashState) :
    DashState × List Effect :=
  if jsTrim text = "" then
    (s, [Effect.alert "Please enter a prompt before generating roadmap."])
  else
    let s1 := { s with roadmapLoading := true, roadmapReady := false }
    let req := Effect.fetchReq "/api/create_roadmap" (RequestBody.binaryBody (jsTrim text) false)
    match out with
    | GenOutcome.networkError msg =>
        ({ s1 with roadmapLoading := false },
         [req, Effect.alert (jsOr (some msg) "Something went wrong while generating roadmap.")])
    | GenOutcome.httpThrow msg =>
        ({ s1 with roadmapLoading := false },
         [req, Effect.alert (jsOr (some msg) "Something went wrong while generating roadmap.")])
    | GenOutcome.httpError err =>
        ({ s1 with roadmapLoading := false },
         [req, Effect.alert (jsOr err "Failed to generate roadmap.")])
    | GenOutcome.success =>
        ({ s1 with roadmapReady := true, showRoadmapDialog := true, roadmapLoading := false },
         [req])

/-- `handleCreateVideo`: same shape as `handleCreateRoadmap` against
`/api/create_video` and the video state fields. -/
def handleCreateVideo (text : String) (out : GenOutcome) (s : DashState) :
    DashState × List Effect :=
  if jsTrim text = "" then
    (s, [Effect.alert "Please enter a prompt before generating video."])
  else
    let s1 := { s with videoLoading := true, videoReady := false }
    let req := Effect.fetchReq "/api/create_video" (RequestBody.binaryBody (jsTrim text) false)
    match out with
    | GenOutcome.networkError msg =>
        ({ s1 with videoLoading := false },
         [req, Effect.alert (jsOr (some msg) "Something went wrong while generating video.")])
    | GenOutcome.httpThrow msg =>
        ({ s1 with videoLoading := false },
         [req, Effect.alert (jsOr (some msg) "Something went wrong while generating video.")])
    | GenOutcome.httpError err =>
        ({ s1 with videoLoading := false },
         [req, Effect.alert (jsOr err "Failed to generate video.")])
    | GenOutcome.success =>
        ({ s1 with videoReady := true, showVideoDialog := true, videoLoading := false },
         [req])

/-- Environment outcome of a binary view/download request: fetch rejection,
non-2xx status, blob-extraction failure, or a binary payload identified by
a blob id. -/
inductive BinOutcome where
  | networkError (msg : String)
  | httpError
  | blobError (msg : String)
  | success (blob : Nat)
deriving DecidableEq, Repr

/-- The local object URL the browser mints for blob `b`
(`URL.createObjectURL`). -/
def objUrl (b : Nat) : String := "blob:" ++ toString b

/-- `handleViewRoadmap`: POST `/api/create_roadmap` with `download: false`;
on success create an object URL, open it in a new tab and close the dialog
(the URL is never revoked); on failure alert and leave state unchanged. -/
def handleViewRoadmap (text : String) (out : BinOutcome) (s : DashState) :
    DashState × List Effect :=
  let req := Effect.fetchReq "/api/create_roadmap" (RequestBody.binaryBody (jsTrim text) false)
  match out with
  | BinOutcome.networkError msg =>
      (s, [req, Effect.alert (jsOr (some msg) "Something went wrong while viewing roadmap.")])
  | BinOutcome.httpError =>
      (s, [req, Effect.alert "Failed to retrieve roadmap."])
  | BinOutcome.blobError msg =>
      (s, [req, Effect.alert (jsOr (some msg) "Something went wrong while viewing roadmap.")])
  | BinOutcome.success b =>
      ({ s with showRoadmapDialog := false },
       [req, Effect.createObjectURL b, Effect.openWindow (objUrl b)])

/-- `handleDownloadRoadmap`: POST `/api/create_roadmap` with
`download: true`; on success create an object URL, click a transient anchor
saving `startup_roadmap.pdf`, revoke the URL and close the dialog; on
failure alert and leave state unchanged. -/
def handleDownloadRoadmap (text : String) (out : BinOutcome) (s : DashState) :
    DashState × List Effect :=
  let req := Effect.fetchReq "/api/create_roadmap" (RequestBody.binaryBody (jsTrim text) true)
  match out with
  | BinOutcome.networkError msg =>
      (s, [req, Effect.alert (jsOr (some msg) "Something went wrong while downloading roadmap.")])
  | BinOutcome.httpError =>
      (s, [req, Effect.alert "Failed to download roadmap."])
  | BinOutcome.blobError msg =>
      (s, [req, Effect.alert (jsOr (some msg) "Something went wrong while downloading roadmap.")])
  | BinOutcome.success b =>
      ({ s with showRoadmapDialog := false },
       [req, Effect.createObjectURL b, Effect.anchorClick "startup_roadmap.pdf" b,
        Effect.revokeObjectURL b])

/-- `handleViewVideo`: as `handleViewRoadmap` against `/api/create_video`. -/
def handleViewVideo (text : String) (out : BinOutcome) (s : DashState) :
    DashState × List Effect :=
  let req := Effect.fetchReq "/api/create_video" (RequestBody.binaryBody (jsTrim text) false)
  match out with
  | BinOutcome.networkError msg =>
      (s, [req, Effect.alert (jsOr (some msg) "Something went wrong while viewing video.")])
  | BinOutcome.httpError =>
      (s, [req, Effect.alert "Failed to retrieve video."])
  | BinOutcome.blobError msg =>
      (s, [req, Effect.alert (jsOr (some msg) "Something went wrong while viewing video.")])
  | BinOutcome.success b =>
      ({ s with showVideoDialog := false },
       [req, Effect.createObjectURL b, Effect.openWindow (objUrl b)])

/-- `handleDownloadVideo`: as `handleDownloadRoadmap` against
`/api/create_video`, saving `startup_ad_video.mp4`. -/
def handleDownloadVideo (text : String) (out : BinOutcome) (s : DashState) :
    DashState × List Effect :=
  let req := Effect.fetchReq "/api/create_video" (RequestBody.binaryBody (jsTrim text) true)
  match out with
  | BinOutcome.networkError msg =>
      (s, [req, Effect.alert (jsOr (some msg) "Something went wrong while downloading video.")])
  | BinOutcome.httpError =>
      (s, [req, Effect.alert "Failed to download video."])
  | BinOutcome.blobError msg =>
      (s, [req, Effect.alert (jsOr (some msg) "Something went wrong while downloading video.")])
  | BinOutcome.success b =>
      ({ s with showVideoDialog := false },
       [req, Effect.createObjectURL b, Effect.anchorClick "startup_ad_video.mp4" b,
        Effect.revokeObjectURL b])

/-- Environment outcome of the network (find-investors) request. -/
inductive NetOutcome where
  | networkError (msg : String)
  | jsonThrow (msg : String)
  | success
deriving DecidableEq, Repr

/-- `handleCreateNetwork`: log the prompt and POST `/api/find-investors`
unconditionally (no emptiness check, no loading state, no alert). -/
def handleCreateNetwork (text : String) (out : NetOutcome) : List Effect :=
  Effect.consoleLog text ::
  Effect.fetchReq "/api/find-investors" (RequestBody.networkBody text) ::
  match out with
  | NetOutcome.networkError msg => [Effect.consoleError msg]
  | NetOutcome.jsonThrow msg => [Effect.consoleError msg]
  | NetOutcome.success => [Effect.consoleLog "Network generation response:"]

/-- Environment outcome of a chat turn: fetch rejection, JSON parse
failure, non-2xx with an optional parsed `error` field, or 2xx with an
optional `response` field. -/
inductive ChatOutcome where
  | networkError (msg : String)
  | jsonThrow (msg : String)
  | httpError (error : Option String)
  | success (response : Option String)
deriving DecidableEq, Repr

/-- The fixed fallback assistant text appended when a chat turn fails. -/
def chatFallbackText : String := "Sorry, something went wrong. Please try again."

/-- The fixed assistant text used when a 2xx chat response carries a
missing or empty `response` field (`data.response || ...`). -/
def chatEmptyRespText : String := "Sorry, I couldn\x27t process that request."

/-- The single assistant message appended once a chat turn resolves. -/
def chatReply (out : ChatOutcome) : ChatMessage :=
  match out with
  | ChatOutcome.success r => ⟨"assistant", jsOr r chatEmptyRespText⟩
  | ChatOutcome.networkError _ => ⟨"assistant", chatFallbackText⟩
  | ChatOutcome.jsonThrow _ => ⟨"assistant", chatFallbackText⟩
  | ChatOutcome.httpError _ => ⟨"assistant", chatFallbackText⟩

/-- The synchronous prefix of `handleChatSubmit` up to issuing the request:
refuse silently on empty trimmed input; else optimistically append the user
message, clear the input, and POST `/api/chat` carrying the submitted
message, the trimmed prompt and the pre-append transcript (the closure
value of `chatMessages`). -/
def chatSubmitStart (text : String) (s : DashState) : DashState × List Effect :=
  if jsTrim s.chatInput = "" then (s, [])
  else
    ({ s with chatMessages := s.chatMessages ++ [⟨"user", s.chatInput⟩], chatInput := "" },
     [Effect.fetchReq "/api/chat"
        (RequestBody.chatBody s.chatInput (jsTrim text) s.chatMessages)])

/-- The continuation of `handleChatSubmit` after the request resolves:
append exactly one assistant message; failures only log to the console. -/
def chatSubmitFinish (out : ChatOutcome) (s : DashState) : DashState × List Effect :=
  ({ s with chatMessages := s.chatMessages ++ [chatReply out] },
   match out with
   | ChatOutcome.success _ => []
   | ChatOutcome.networkError msg => [Effect.consoleError msg]
   | ChatOutcome.jsonThrow msg => [Effect.consoleError msg]
   | ChatOutcome.httpError err =>
       [Effect.consoleError (jsOr err "Failed to process chat message")])

/-- `handleChatSubmit`: the full run of one chat turn. -/
def handleChatSubmit (text : String) (out : ChatOutcome) (s : DashState) :
    DashState × List Effect :=
  if jsTrim s.chatInput = "" then (s, [])
  else
    let p := chatSubmitStart text s
    let q := chatSubmitFinish out p.1
    (q.1, p.2 ++ q.2)

/-- The network requests among a list of effects, as (url, body) pairs. -/
def requestsOf (es : List Effect) : List (String × RequestBody) :=
  es.filterMap fun e =>
    match e with
    | Effect.fetchReq u b => some (u, b)
    | _ => none

/-- Number of `alert` effects in a list. -/
def alertCount (es : List Effect) : Nat :=
  (es.filter fun e => match e with | Effect.alert _ => true | _ => false).length

/-- Number of `openWindow` effects in a list. -/
def openCount (es : List Effect) : Nat :=
  (es.filter fun e => match e with | Effect.openWindow _ => true | _ => false).length

/-- Number of `createObjectURL` effects in a list. -/
def createCount (es : List Effect) : Nat :=
  (es.filter fun e => match e with | Effect.createObjectURL _ => true | _ => false).length

/-- Number of `revokeObjectURL` effects in a list. -/
def revokeCount (es : List Effect) : Nat :=
  (es.filter fun e => match e with | Effect.revokeObjectURL _ => true | _ => false).length

/-- The per-feature lifecycle phase of the spec state machine. -/
inductive Phase where
  | idle
  | generating
  | ready
deriving DecidableEq, Repr

/-- The roadmap phase as encoded by the two roadmap booleans. -/
def roadmapPhase (s : DashState) : Phase :=
  if s.roadmapLoading then Phase.generating
  else if s.roadmapReady then Phase.ready
  else Phase.idle

/-- The video phase as encoded by the two video booleans. -/
def videoPhase (s : DashState) : Phase :=
  if s.videoLoading then Phase.generating
  else if s.videoReady then Phase.ready
  else Phase.idle

/-- The synchronous prefix of `handleCreateRoadmap` up to issuing the
request: validation, then set loading and clear ready.  The Bool records
whether a request was actually issued. -/
def roadmapGenStart (text : String) (s : DashState) : DashState × Bool :=
  if jsTrim text = "" then (s, false)
  else ({ s with roadmapLoading := true, roadmapReady := false }, true)

/-- The continuation of `handleCreateRoadmap` once the request resolves. -/
def roadmapGenFinish (out : GenOutcome) (s : DashState) : DashState :=
  match out with
  | GenOutcome.success =>
      { s with roadmapReady := true, showRoadmapDialog := true, roadmapLoading := false }
  | _ => { s with roadmapLoading := false }

/-- The synchronous prefix of `handleCreateVideo` up to issuing the request. -/
def videoGenStart (text : String) (s : DashState) : DashState × Bool :=
  if jsTrim text = "" then (s, false)
  else ({ s with videoLoading := true, videoReady := false }, true)

/-- The continuation of `handleCreateVideo` once the request resolves. -/
def videoGenFinish (out : GenOutcome) (s : DashState) : DashState :=
  match out with
  | GenOutcome.success =>
      { s with videoReady := true, showVideoDialog := true, videoLoading := false }
  | _ => { s with videoLoading := false }

/-- Whether a click can reach `handleCreateRoadmap` per the render logic:
the Generate button (shown while not ready) is disabled exactly while
loading, and the Redo button (shown while ready) is never disabled. -/
def roadmapClickable (s : DashState) : Bool :=
  s.roadmapReady || !s.roadmapLoading

/-- Whether a click can reach `handleCreateVideo` per the render logic. -/
def videoClickable (s : DashState) : Bool :=
  s.videoReady || !s.videoLoading

/-- A system configuration: the dashboard state plus, per feature, the
number of generate requests currently in flight. -/
structure Sys where
  dash : DashState
  pendingSlides : Nat
  pendingVideo : Nat
  pendingNetwork : Nat
  pendingRoadmap : Nat
deriving DecidableEq, Repr

/-- Initial system configuration: no request in flight. -/
def sysInit : Sys := ⟨dashInit, 0, 0, 0, 0⟩

/-- Event-level small-step semantics of the generate triggers, with the
shared prompt `text` fixed for the session (it comes from the route
state).  A click step runs the synchronous prefix of the handler (gated by
the render logic); a finish step resolves one in-flight request with an
environment-chosen outcome.  The slides and network features track no
loading state, so their triggers are never disabled. -/
inductive Step (text : String) : Sys → Sys → Prop where
  | clickRoadmap (s : Sys) (h : roadmapClickable s.dash = true) :
      Step text s
        { s with
          dash := (roadmapGenStart text s.dash).1,
          pendingRoadmap :=
            s.pendingRoadmap + (if (roadmapGenStart text s.dash).2 then 1 else 0) }
  | finishRoadmap (s : Sys) (out : GenOutcome) (h : 0 < s.pendingRoadmap) :
      Step text s
        { s with dash := roadmapGenFinish out s.dash,
                 pendingRoadmap := s.pendingRoadmap - 1 }
  | clickVideo (s : Sys) (h : videoClickable s.dash = true) :
      Step text s
        { s with
          dash := (videoGenStart text s.dash).1,
          pendingVideo :=
            s.pendingVideo + (if (videoGenStart text s.dash).2 then 1 else 0) }
  | finishVideo (s : Sys) (out : GenOutcome) (h : 0 < s.pendingVideo) :
      Step text s
        { s with dash := videoGenFinish out s.dash,
                 pendingVideo := s.pendingVideo - 1 }
  | clickSlides (s : Sys) :
      Step text s
        { s with pendingSlides := s.pendingSlides + (if jsTrim text = "" then 0 else 1) }
  | finishSlides (s : Sys) (h : 0 < s.pendingSlides) :
      Step text s { s with pendingSlides := s.pendingSlides - 1 }
  | clickNetwork (s : Sys) :
      Step text s { s with pendingNetwork := s.pendingNetwork + 1 }
  | finishNetwork (s : Sys) (h : 0 < s.pendingNetwork) :
      Step text s { s with pendingNetwork := s.pendingNetwork - 1 }

/-- Configurations reachable from the initial one. -/
def Reachable (text : String) (s : Sys) : Prop :=
  Relation.ReflTransGen (Step text) sysInit s

/-- Inductive invariant: the roadmap/video in-flight count matches the
loading flag (in particular it is at most one), and loading excludes
ready. -/
def SysInv (s : Sys) : Prop :=
  s.pendingRoadmap = (if s.dash.roadmapLoading then 1 else 0) ∧
  (s.dash.roadmapLoading = true → s.dash.roadmapReady = false) ∧
  s.pendingVideo = (if s.dash.videoLoading then 1 else 0) ∧
  (s.dash.videoLoading = true → s.dash.videoReady = false)

theorem sysInv_init : SysInv sysInit := by
  refine ⟨rfl, ?_, rfl, ?_⟩ <;> intro h <;> simp [sysInit, dashInit] at h

theorem sysInv_step {text : String} {s t : Sys} (hs : SysInv s) (h : Step text s t) :
    SysInv t := by
  obtain ⟨h1, h2, h3, h4⟩ := hs
  cases h with
  | clickRoadmap hc =>
      by_cases he : jsTrim text = ""
      · simpa [SysInv, roadmapGenStart, he] using ⟨h1, h2, h3, h4⟩
      · have hl : s.dash.roadmapLoading = false := by
          cases hl : s.dash.roadmapLoading
          · rfl
          · exfalso
            rw [roadmapClickable, h2 hl, hl] at hc
            simp at hc
        refine ⟨?_, ?_, ?_, ?_⟩
        · simp [roadmapGenStart, he, h1, hl]
        · simp [roadmapGenStart, he]
        · simpa [roadmapGenStart, he] using h3
        · simpa [roadmapGenStart, he] using h4
  | finishRoadmap out hp0 =>
      have hl : s.dash.roadmapLoading = true := by
        cases hl : s.dash.roadmapLoading
        · rw [h1, hl] at hp0; simp at hp0
        · rfl
      have hp : s.pendingRoadmap = 1 := by rw [h1, hl]; rfl
      cases out <;>
        exact ⟨by simp [roadmapGenFinish, hp], by simp [roadmapGenFinish],
          by simpa [roadmapGenFinish] using h3, by simpa [roadmapGenFinish] using h4⟩
  | clickVideo hc =>
      by_cases he : jsTrim text = ""
      · simpa [SysInv, videoGenStart, he] using ⟨h1, h2, h3, h4⟩
      · have hl : s.dash.videoLoading = false := by
          cases hl : s.dash.videoLoading
          · rfl
          · exfalso
            rw [videoClickable, h4 hl, hl] at hc
            simp at hc
        refine ⟨?_, ?_, ?_, ?_⟩
        · simpa [videoGenStart, he] using h1
        · simpa [videoGenStart, he] using h2
        · simp [videoGenStart, he, h3, hl]
        · simp [videoGenStart, he]
  | finishVideo out hp0 =>
      have hl : s.dash.videoLoading = true := by
        cases hl : s.dash.videoLoading
        · rw [h3, hl] at hp0; simp at hp0
        · rfl
      have hp : s.pendingVideo = 1 := by rw [h3, hl]; rfl
      cases out <;>
        exact ⟨by simpa [videoGenFinish] using h1, by simpa [videoGenFinish] using h2,
          by simp [videoGenFinish, hp], by simp [videoGenFinish]⟩
  | clickSlides => exact ⟨h1, h2, h3, h4⟩
  | finishSlides hp0 => exact ⟨h1, h2, h3, h4⟩
  | clickNetwork => exact ⟨h1, h2, h3, h4⟩
  | finishNetwork hp0 => exact ⟨h1, h2, h3, h4⟩

theorem sysInv_reachable {text : String} {s : Sys} (h : Reachable text s) : SysInv s := by
  have h' : Relation.ReflTransGen (Step text) sysInit s := h
  clear h
  induction h' with
  | refl => exact sysInv_init
  | tail _ hstep ih => exact sysInv_step ih hstep

/-- A dashboard state whose chat input holds `input`, otherwise initial. -/
def chatState (input : String) : DashState := { dashInit with chatInput := input }

/-- A roadmap state in the ready phase, as after a successful generation. -/
def readyRoadmapDash : DashState := { dashInit with roadmapReady := true }

/-- Claim C1 (amended): for the slides, roadmap and video features,
invoking generate with an empty or whitespace-only prompt issues no
network request, surfaces exactly one validation alert, and leaves the
state — hence the phase — unchanged.  The network feature is the
exception: it issues its request unconditionally (see the
counterexample). -/
theorem empty_prompt_refused (text : String) (so : SlidesOutcome)
    (go : GenOutcome) (s : DashState) (he : jsTrim text = "") :
    requestsOf (handleCreateSlides text so) = [] ∧
    alertCount (handleCreateSlides text so) = 1 ∧
    (handleCreateRoadmap text go s).1 = s ∧
    requestsOf (handleCreateRoadmap text go s).2 = [] ∧
    alertCount (handleCreateRoadmap text go s).2 = 1 ∧
    roadmapPhase (handleCreateRoadmap text go s).1 = roadmapPhase s ∧
    (handleCreateVideo text go s).1 = s ∧
    requestsOf (handleCreateVideo text go s).2 = [] ∧
    alertCount (handleCreateVideo text go s).2 = 1 ∧
    videoPhase (handleCreateVideo text go s).1 = videoPhase s := by
  refine ⟨?_, ?_, ?_, ?_, ?_, ?_, ?_, ?_, ?_, ?_⟩ <;>
    simp [handleCreateSlides, handleCreateRoadmap, handleCreateVideo, he,
      requestsOf, alertCount]

/-- Witness for `empty_prompt_refused` at a whitespace-only prompt. -/
theorem empty_prompt_refused_witness :
    jsTrim "  " = "" ∧
    (requestsOf (handleCreateSlides "  " (SlidesOutcome.networkError "x")) = [] ∧
     alertCount (handleCreateSlides "  " (SlidesOutcome.networkError "x")) = 1 ∧
     (handleCreateRoadmap "  " GenOutcome.success dashInit).1 = dashInit ∧
     requestsOf (handleCreateRoadmap "  " GenOutcome.success dashInit).2 = [] ∧
     alertCount (handleCreateRoadmap "  " GenOutcome.success dashInit).2 = 1 ∧
     roadmapPhase (handleCreateRoadmap "  " GenOutcome.success dashInit).1 =
       roadmapPhase dashInit ∧
     (handleCreateVideo "  " GenOutcome.success dashInit).1 = dashInit ∧
     requestsOf (handleCreateVideo "  " GenOutcome.success dashInit).2 = [] ∧
     alertCount (handleCreateVideo "  " GenOutcome.success dashInit).2 = 1 ∧
     videoPhase (handleCreateVideo "  " GenOutcome.success dashInit).1 =
       videoPhase dashInit) :=
  ⟨by decide,
   empty_prompt_refused "  " (SlidesOutcome.networkError "x") GenOutcome.success dashInit
     (by decide)⟩

/-- Claim C1 counterexample: generating the investor network with an empty
prompt still issues the POST to `/api/find-investors`, and no validation
alert is surfaced. -/
theorem network_empty_prompt_fetches :
    requestsOf (handleCreateNetwork "" NetOutcome.success) =
      [("/api/find-investors", RequestBody.networkBody "")] ∧
    alertCount (handleCreateNetwork "" NetOutcome.success) = 0 := ⟨rfl, rfl⟩

/-- Claim C2 (amended): for the roadmap and video features, every
reachable configuration has at most one generate request in flight, and
while such a feature is in the generating phase its trigger is not
clickable.  The slides and network features track no loading state, their
triggers are never disabled, and overlapping invocations are possible
(see the counterexample). -/
theorem roadmap_video_single_flight (text : String) (s : Sys)
    (h : Reachable text s) :
    s.pendingRoadmap ≤ 1 ∧ s.pendingVideo ≤ 1 ∧
    (roadmapPhase s.dash = Phase.generating → roadmapClickable s.dash = false) ∧
    (videoPhase s.dash = Phase.generating → videoClickable s.dash = false) := by
  obtain ⟨h1, h2, h3, h4⟩ := sysInv_reachable h
  refine ⟨?_, ?_, ?_, ?_⟩
  · rw [h1]; cases s.dash.roadmapLoading <;> simp
  · rw [h3]; cases s.dash.videoLoading <;> simp
  · intro hg
    cases hl : s.dash.roadmapLoading
    · cases hr : s.dash.roadmapReady <;> simp [roadmapPhase, hl, hr] at hg
    · simp [roadmapClickable, hl, h2 hl]
  · intro hg
    cases hl : s.dash.videoLoading
    · cases hr : s.dash.videoReady <;> simp [videoPhase, hl, hr] at hg
    · simp [videoClickable, hl, h4 hl]

/-- Witness for `roadmap_video_single_flight` at the initial configuration. -/
theorem roadmap_video_single_flight_witness :
    Reachable "x" sysInit ∧
    (sysInit.pendingRoadmap ≤ 1 ∧ sysInit.pendingVideo ≤ 1 ∧
     (roadmapPhase sysInit.dash = Phase.generating →
       roadmapClickable sysInit.dash = false) ∧
     (videoPhase sysInit.dash = Phase.generating →
       videoClickable sysInit.dash = false)) :=
  ⟨Relation.ReflTransGen.refl,
   roadmap_video_single_flight "x" sysInit Relation.ReflTransGen.refl⟩

/-- Claim C2 counterexample: with a non-empty prompt, clicking the slides
Generate trigger twice in a row is permitted (it is never disabled) and
yields two overlapping slides requests in flight. -/
theorem slides_overlapping_requests :
    Reachable "x"
      { dash := dashInit, pendingSlides := 2, pendingVideo := 0,
        pendingNetwork := 0, pendingRoadmap := 0 } ∧
    ¬ ((2 : Nat) ≤ 1) := by
  refine ⟨?_, by omega⟩
  have h1 : Step "x" sysInit
      { dash := dashInit, pendingSlides := 1, pendingVideo := 0,
        pendingNetwork := 0, pendingRoadmap := 0 } :=
    Step.clickSlides sysInit
  have h2 : Step "x"
      { dash := dashInit, pendingSlides := 1, pendingVideo := 0,
        pendingNetwork := 0, pendingRoadmap := 0 }
      { dash := dashInit, pendingSlides := 2, pendingVideo := 0,
        pendingNetwork := 0, pendingRoadmap := 0 } :=
    Step.clickSlides _
  exact Relation.ReflTransGen.head h1 (Relation.ReflTransGen.single h2)

/-- Claim C3 counterexample: a failed redo of the roadmap from the ready
phase ends in the idle phase, not the pre-request ready phase — the
handler clears the ready flag before the request and does not restore it
on failure. -/
theorem failed_redo_not_ready :
    roadmapPhase readyRoadmapDash = Phase.ready ∧
    roadmapPhase (handleCreateRoadmap "x" (GenOutcome.httpError (some "boom"))
      readyRoadmapDash).1 = Phase.idle ∧
    ¬ roadmapPhase (handleCreateRoadmap "x" (GenOutcome.httpError (some "boom"))
      readyRoadmapDash).1 = Phase.ready := ⟨rfl, rfl, by decide⟩

/-- Claim C3 (amended): for roadmap and video, any failed generate or redo
request (fetch rejection, non-2xx with or without a parsable error body)
leaves the feature in the idle phase — which is the pre-request phase for
a generate from idle but not for a redo from ready — and surfaces exactly
one alert.  (A validation refusal leaves the state unchanged; see
`empty_prompt_refused`.) -/
theorem failed_generation_goes_idle (text : String) (s : DashState)
    (out : GenOutcome) (hne : ¬ jsTrim text = "") (hf : ¬ out = GenOutcome.success) :
    roadmapPhase (handleCreateRoadmap text out s).1 = Phase.idle ∧
    alertCount (handleCreateRoadmap text out s).2 = 1 ∧
    videoPhase (handleCreateVideo text out s).1 = Phase.idle ∧
    alertCount (handleCreateVideo text out s).2 = 1 := by
  cases out <;> simp_all [handleCreateRoadmap, handleCreateVideo,
    roadmapPhase, videoPhase, alertCount]

/-- Witness for `failed_generation_goes_idle` at a concrete failed redo. -/
theorem failed_generation_goes_idle_witness :
    ¬ jsTrim "x" = "" ∧
    ¬ GenOutcome.httpError none = GenOutcome.success ∧
    (roadmapPhase (handleCreateRoadmap "x" (GenOutcome.httpError none)
        readyRoadmapDash).1 = Phase.idle ∧
     alertCount (handleCreateRoadmap "x" (GenOutcome.httpError none)
        readyRoadmapDash).2 = 1 ∧
     videoPhase (handleCreateVideo "x" (GenOutcome.httpError none)
        readyRoadmapDash).1 = Phase.idle ∧
     alertCount (handleCreateVideo "x" (GenOutcome.httpError none)
        readyRoadmapDash).2 = 1) :=
  ⟨by decide, by decide,
   failed_generation_goes_idle "x" readyRoadmapDash (GenOutcome.httpError none)
     (by decide) (by decide)⟩

/-- Claim C4: for the binary-kind features (roadmap, video), the view and
download actions POST the identical endpoint with identical bodies except
for the boolean download field — false for view, true for download — and
neither action changes the feature phase (loading/ready flags). -/
theorem view_download_same_endpoint (text : String) (out : BinOutcome) (s : DashState) :
    requestsOf (handleViewRoadmap text out s).2 =
      [("/api/create_roadmap", RequestBody.binaryBody (jsTrim text) false)] ∧
    requestsOf (handleDownloadRoadmap text out s).2 =
      [("/api/create_roadmap", RequestBody.binaryBody (jsTrim text) true)] ∧
    requestsOf (handleViewVideo text out s).2 =
      [("/api/create_video", RequestBody.binaryBody (jsTrim text) false)] ∧
    requestsOf (handleDownloadVideo text out s).2 =
      [("/api/create_video", RequestBody.binaryBody (jsTrim text) true)] ∧
    roadmapPhase (handleViewRoadmap text out s).1 = roadmapPhase s ∧
    roadmapPhase (handleDownloadRoadmap text out s).1 = roadmapPhase s ∧
    videoPhase (handleViewVideo text out s).1 = videoPhase s ∧
    videoPhase (handleDownloadVideo text out s).1 = videoPhase s := by
  cases out <;>
    simp [handleViewRoadmap, handleDownloadRoadmap, handleViewVideo,
      handleDownloadVideo, requestsOf, roadmapPhase, videoPhase]

/-- Claim C5 counterexample: a 2xx chat response whose `response` field is
the empty string — a returned response text — appends the fixed
empty-response fallback instead of that returned text, because
`data.response || ...` treats the empty string as missing. -/
theorem chat_empty_response_fallback :
    (handleChatSubmit "x" (ChatOutcome.success (some "")) (chatState "Hi")).1.chatMessages =
      [greeting, ⟨"user", "Hi"⟩, ⟨"assistant", chatEmptyRespText⟩] ∧
    ¬ chatEmptyRespText = "" := ⟨rfl, by decide⟩

/-- Claim C5 (amended): submitting a non-empty message appends the user
message immediately (before the request resolves); once it resolves
exactly one assistant message is appended — the returned response text
when the 2xx body carries a non-empty `response`, a fixed empty-response
fallback when a 2xx body lacks one or carries an empty one, and the fixed
failure fallback on any failure — the prior transcript is preserved as an
unchanged prefix, and no chat failure surfaces as an alert. -/
theorem chat_transcript_append (text : String) (out : ChatOutcome) (s : DashState)
    (r m : String) (e : Option String)
    (h : ¬ jsTrim s.chatInput = "") (hr : ¬ r = "") :
    (chatSubmitStart text s).1.chatMessages =
      s.chatMessages ++ [⟨"user", s.chatInput⟩] ∧
    (handleChatSubmit text out s).1.chatMessages =
      s.chatMessages ++ [⟨"user", s.chatInput⟩, chatReply out] ∧
    (chatReply out).role = "assistant" ∧
    alertCount (handleChatSubmit text out s).2 = 0 ∧
    chatReply (ChatOutcome.success (some r)) = ⟨"assistant", r⟩ ∧
    chatReply (ChatOutcome.success none) = ⟨"assistant", chatEmptyRespText⟩ ∧
    chatReply (ChatOutcome.success (some "")) = ⟨"assistant", chatEmptyRespText⟩ ∧
    chatReply (ChatOutcome.networkError m) = ⟨"assistant", chatFallbackText⟩ ∧
    chatReply (ChatOutcome.jsonThrow m) = ⟨"assistant", chatFallbackText⟩ ∧
    chatReply (ChatOutcome.httpError e) = ⟨"assistant", chatFallbackText⟩ := by
  refine ⟨?_, ?_, ?_, ?_, ?_, rfl, rfl, rfl, rfl, rfl⟩
  · simp [chatSubmitStart, h]
  · cases out <;>
      simp [handleChatSubmit, chatSubmitStart, chatSubmitFinish, chatReply, h]
  · cases out <;> simp [chatReply]
  · cases out <;>
      simp [handleChatSubmit, chatSubmitStart, chatSubmitFinish, alertCount, h]
  · simp [chatReply, jsOr, hr]

/-- Witness for `chat_transcript_append` at a concrete submission. -/
theorem chat_transcript_append_witness :
    ¬ jsTrim (chatState "Hi").chatInput = "" ∧ ¬ ("ok" : String) = "" ∧
    ((chatSubmitStart "x" (chatState "Hi")).1.chatMessages =
      (chatState "Hi").chatMessages ++ [⟨"user", (chatState "Hi").chatInput⟩] ∧
    (handleChatSubmit "x" (ChatOutcome.httpError none) (chatState "Hi")).1.chatMessages =
      (chatState "Hi").chatMessages ++
        [⟨"user", (chatState "Hi").chatInput⟩, chatReply (ChatOutcome.httpError none)] ∧
    (chatReply (ChatOutcome.httpError none)).role = "assistant" ∧
    alertCount (handleChatSubmit "x" (ChatOutcome.httpError none) (chatState "Hi")).2 = 0 ∧
    chatReply (ChatOutcome.success (some "ok")) = ⟨"assistant", "ok"⟩ ∧
    chatReply (ChatOutcome.success none) = ⟨"assistant", chatEmptyRespText⟩ ∧
    chatReply (ChatOutcome.success (some "")) = ⟨"assistant", chatEmptyRespText⟩ ∧
    chatReply (ChatOutcome.networkError "") = ⟨"assistant", chatFallbackText⟩ ∧
    chatReply (ChatOutcome.jsonThrow "") = ⟨"assistant", chatFallbackText⟩ ∧
    chatReply (ChatOutcome.httpError none) = ⟨"assistant", chatFallbackText⟩) :=
  ⟨by decide, by decide,
   chat_transcript_append "x" (ChatOutcome.httpError none) (chatState "Hi") "ok" "" none
     (by decide) (by decide)⟩

/-- Claim C6: the chat request for a turn carries exactly the transcript
recorded strictly before the turn (excluding the optimistically appended
user message), the submitted message, and the trimmed session prompt. -/
theorem chat_history_strictly_prior (text : String) (out : ChatOutcome) (s : DashState)
    (h : ¬ jsTrim s.chatInput = "") :
    requestsOf (handleChatSubmit text out s).2 =
      [("/api/chat", RequestBody.chatBody s.chatInput (jsTrim text) s.chatMessages)] ∧
    ¬ (chatSubmitStart text s).1.chatMessages = s.chatMessages := by
  constructor
  · cases out <;>
      simp [handleChatSubmit, chatSubmitStart, chatSubmitFinish, requestsOf, h]
  · simp [chatSubmitStart, h]

/-- Witness for `chat_history_strictly_prior` at a concrete submission. -/
theorem chat_history_strictly_prior_witness :
    ¬ jsTrim (chatState "Hi").chatInput = "" ∧
    (requestsOf (handleChatSubmit "x" (ChatOutcome.success (some "ok"))
        (chatState "Hi")).2 =
      [("/api/chat",
        RequestBody.chatBody (chatState "Hi").chatInput (jsTrim "x")
          (chatState "Hi").chatMessages)] ∧
    ¬ (chatSubmitStart "x" (chatState "Hi")).1.chatMessages =
        (chatState "Hi").chatMessages) :=
  ⟨by decide,
   chat_history_strictly_prior "x" (ChatOutcome.success (some "ok")) (chatState "Hi")
     (by decide)⟩

/-- Claim C7 counterexample: a 2xx slides response containing the
`presentationUrl` field with the empty string as value is treated as a
missing link — no window is opened and an alert is surfaced — so not
every 2xx response containing `presentationUrl` has its URL opened. -/
theorem slides_empty_url_not_opened :
    handleCreateSlides "x" (SlidesOutcome.body true none (some "")) =
      [Effect.fetchReq "/api/create_slides" (RequestBody.slidesBody "x"),
       Effect.alert "Presentation link not found in response."] ∧
    openCount (handleCreateSlides "x" (SlidesOutcome.body true none (some ""))) = 0 :=
  ⟨rfl, rfl⟩

/-- Claim C7 (amended): a 2xx slides response whose body lacks the
`presentationUrl` field, or carries it with the empty string as value, is
treated as a failure — no window is opened and one alert is surfaced —
and a 2xx response with a non-empty `presentationUrl` opens exactly that
URL. -/
theorem slides_missing_link_is_failure (text : String) (err : Option String)
    (u : String) (hne : ¬ jsTrim text = "") (hu : ¬ u = "") :
    handleCreateSlides text (SlidesOutcome.body true err none) =
      [Effect.fetchReq "/api/create_slides" (RequestBody.slidesBody text),
       Effect.alert "Presentation link not found in response."] ∧
    openCount (handleCreateSlides text (SlidesOutcome.body true err none)) = 0 ∧
    alertCount (handleCreateSlides text (SlidesOutcome.body true err none)) = 1 ∧
    handleCreateSlides text (SlidesOutcome.body true err (some "")) =
      [Effect.fetchReq "/api/create_slides" (RequestBody.slidesBody text),
       Effect.alert "Presentation link not found in response."] ∧
    handleCreateSlides text (SlidesOutcome.body true err (some u)) =
      [Effect.fetchReq "/api/create_slides" (RequestBody.slidesBody text),
       Effect.openWindow u] ∧
    alertCount (handleCreateSlides text (SlidesOutcome.body true err (some u))) = 0 := by
  simp [handleCreateSlides, hne, hu, openCount, alertCount]

/-- Witness for `slides_missing_link_is_failure` at a concrete response. -/
theorem slides_missing_link_is_failure_witness :
    ¬ jsTrim "x" = "" ∧ ¬ ("http://x/1" : String) = "" ∧
    (handleCreateSlides "x" (SlidesOutcome.body true none none) =
      [Effect.fetchReq "/api/create_slides" (RequestBody.slidesBody "x"),
       Effect.alert "Presentation link not found in response."] ∧
    openCount (handleCreateSlides "x" (SlidesOutcome.body true none none)) = 0 ∧
    alertCount (handleCreateSlides "x" (SlidesOutcome.body true none none)) = 1 ∧
    handleCreateSlides "x" (SlidesOutcome.body true none (some "")) =
      [Effect.fetchReq "/api/create_slides" (RequestBody.slidesBody "x"),
       Effect.alert "Presentation link not found in response."] ∧
    handleCreateSlides "x" (SlidesOutcome.body true none (some "http://x/1")) =
      [Effect.fetchReq "/api/create_slides" (RequestBody.slidesBody "x"),
       Effect.openWindow "http://x/1"] ∧
    alertCount (handleCreateSlides "x"
      (SlidesOutcome.body true none (some "http://x/1"))) = 0) :=
  ⟨by decide, by decide,
   slides_missing_link_is_failure "x" none "http://x/1" (by decide) (by decide)⟩

/-- Claim C8 counterexample: a successful view action (roadmap or video)
creates a local object URL for the fetched blob and never revokes it —
the view exit path leaves the blob reference unreleased. -/
theorem view_url_never_revoked :
    createCount (handleViewRoadmap "x" (BinOutcome.success 0) dashInit).2 = 1 ∧
    revokeCount (handleViewRoadmap "x" (BinOutcome.success 0) dashInit).2 = 0 ∧
    createCount (handleViewVideo "x" (BinOutcome.success 0) dashInit).2 = 1 ∧
    revokeCount (handleViewVideo "x" (BinOutcome.success 0) dashInit).2 = 0 :=
  ⟨rfl, rfl, rfl, rfl⟩

/-- Claim C8 (amended): only the download actions release the object URL —
on their success path, after the save is triggered — while the view
actions create an object URL on success and never revoke it; failing exit
paths of either action create no object URL at all (so nothing is left to
release there). -/
theorem blob_url_release (text : String) (s : DashState) (b : Nat) (m : String) :
    createCount (handleDownloadRoadmap text (BinOutcome.success b) s).2 = 1 ∧
    revokeCount (handleDownloadRoadmap text (BinOutcome.success b) s).2 = 1 ∧
    createCount (handleDownloadVideo text (BinOutcome.success b) s).2 = 1 ∧
    revokeCount (handleDownloadVideo text (BinOutcome.success b) s).2 = 1 ∧
    createCount (handleViewRoadmap text (BinOutcome.success b) s).2 = 1 ∧
    revokeCount (handleViewRoadmap text (BinOutcome.success b) s).2 = 0 ∧
    createCount (handleViewVideo text (BinOutcome.success b) s).2 = 1 ∧
    revokeCount (handleViewVideo text (BinOutcome.success b) s).2 = 0 ∧
    createCount (handleViewRoadmap text (BinOutcome.networkError m) s).2 = 0 ∧
    createCount (handleViewRoadmap text BinOutcome.httpError s).2 = 0 ∧
    createCount (handleViewRoadmap text (BinOutcome.blobError m) s).2 = 0 ∧
    createCount (handleDownloadRoadmap text (BinOutcome.networkError m) s).2 = 0 ∧
    createCount (handleDownloadRoadmap text BinOutcome.httpError s).2 = 0 ∧
    createCount (handleDownloadRoadmap text (BinOutcome.blobError m) s).2 = 0 ∧
    createCount (handleViewVideo text (BinOutcome.networkError m) s).2 = 0 ∧
    createCount (handleViewVideo text BinOutcome.httpError s).2 = 0 ∧
    createCount (handleViewVideo text (BinOutcome.blobError m) s).2 = 0 ∧
    createCount (handleDownloadVideo text (BinOutcome.networkError m) s).2 = 0 ∧
    createCount (handleDownloadVideo text BinOutcome.httpError s).2 = 0 ∧
    createCount (handleDownloadVideo text (BinOutcome.blobError m) s).2 = 0 := by
  simp [handleViewRoadmap, handleDownloadRoadmap, handleViewVideo,
    handleDownloadVideo, createCount, revokeCount]

/-- Claim C9: the chat transcript is initialised with exactly the single
fixed assistant greeting, every chat submission only appends to the
transcript (so it always begins with the greeting), and the history sent
with the first user turn is exactly the non-empty list holding the
greeting. -/
theorem chat_greeting_invariant (text : String) (out : ChatOutcome) (s : DashState) :
    dashInit.chatMessages = [greeting] ∧
    greeting.role = "assistant" ∧
    (∃ tl : List ChatMessage,
      (handleChatSubmit text out s).1.chatMessages = s.chatMessages ++ tl) ∧
    requestsOf (handleChatSubmit text out (chatState "Hi")).2 =
      [("/api/chat", RequestBody.chatBody "Hi" (jsTrim text) [greeting])] ∧
    ¬ ([greeting] = ([] : List ChatMessage)) := by
  refine ⟨rfl, rfl, ?_, ?_, by decide⟩
  · by_cases h : jsTrim s.chatInput = ""
    · exact ⟨[], by simp [handleChatSubmit, h]⟩
    · exact ⟨[⟨"user", s.chatInput⟩, chatReply out],
        by cases out <;>
          simp [handleChatSubmit, chatSubmitStart, chatSubmitFinish, chatReply, h]⟩
  · have h : ¬ jsTrim "Hi" = "" := by decide
    cases out <;>
      simp [handleChatSubmit, chatSubmitStart, chatSubmitFinish, requestsOf,
        chatState, dashInit, h]

/-- Claim C10: for the binary-kind features, every failed view or download
action leaves the component state — in particular the modal visibility —
entirely unchanged and surfaces one alert, while the success path closes
the corresponding dialog (and changes nothing else). -/
theorem modal_closed_only_on_success (text : String) (s : DashState)
    (b : Nat) (m : String) :
    ((handleViewRoadmap text (BinOutcome.networkError m) s).1 = s ∧
     alertCount (handleViewRoadmap text (BinOutcome.networkError m) s).2 = 1) ∧
    ((handleViewRoadmap text BinOutcome.httpError s).1 = s ∧
     alertCount (handleViewRoadmap text BinOutcome.httpError s).2 = 1) ∧
    ((handleViewRoadmap text (BinOutcome.blobError m) s).1 = s ∧
     alertCount (handleViewRoadmap text (BinOutcome.blobError m) s).2 = 1) ∧
    (handleViewRoadmap text (BinOutcome.success b) s).1 =
      { s with showRoadmapDialog := false } ∧
    ((handleDownloadRoadmap text (BinOutcome.networkError m) s).1 = s ∧
     alertCount (handleDownloadRoadmap text (BinOutcome.networkError m) s).2 = 1) ∧
    ((handleDownloadRoadmap text BinOutcome.httpError s).1 = s ∧
     alertCount (handleDownloadRoadmap text BinOutcome.httpError s).2 = 1) ∧
    ((handleDownloadRoadmap text (BinOutcome.blobError m) s).1 = s ∧
     alertCount (handleDownloadRoadmap text (BinOutcome.blobError m) s).2 = 1) ∧
    (handleDownloadRoadmap text (BinOutcome.success b) s).1 =
      { s with showRoadmapDialog := false } ∧
    ((handleViewVideo text (BinOutcome.networkError m) s).1 = s ∧
     alertCount (handleViewVideo text (BinOutcome.networkError m) s).2 = 1) ∧
    ((handleViewVideo text BinOutcome.httpError s).1 = s ∧
     alertCount (handleViewVideo text BinOutcome.httpError s).2 = 1) ∧
    ((handleViewVideo text (BinOutcome.blobError m) s).1 = s ∧
     alertCount (handleViewVideo text (BinOutcome.blobError m) s).2 = 1) ∧
    (handleViewVideo text (BinOutcome.success b) s).1 =
      { s with showVideoDialog := false } ∧
    ((handleDownloadVideo text (BinOutcome.networkError m) s).1 = s ∧
     alertCount (handleDownloadVideo text (BinOutcome.networkError m) s).2 = 1) ∧
    ((handleDownloadVideo text BinOutcome.httpError s).1 = s ∧
     alertCount (handleDownloadVideo text BinOutcome.httpError s).2 = 1) ∧
    ((handleDownloadVideo text (BinOutcome.blobError m) s).1 = s ∧
     alertCount (handleDownloadVideo text (BinOutcome.blobError m) s).2 = 1) ∧
    (handleDownloadVideo text (BinOutcome.success b) s).1 =
      { s with showVideoDialog := false } := by
  simp [handleViewRoadmap, handleDownloadRoadmap, handleViewVideo,
    handleDownloadVideo, alertCount]

end Upstart


